import Mathlib

/-
Verification of the lesson-plan extraction pipeline.

Shallow embedding of the repository sources:
- extract_lesson_plans.py (folder-id resolver, lesson-plan selector, roster walk)
- src/common_core_sorter/tools/custom_tool.py (sheets writer row lookup)
- main.py (orchestrator input loading)

Strings model Python strings; Python substring tests (`sub in s`) are modelled
by listIsInfix on the character lists; Python exceptions at the service
boundary are modelled by Except values fed into the functions that catch them.
-/

/-- Python substring containment on character lists: true iff pat occurs
contiguously inside the second list (the empty pattern always occurs). -/
def listIsInfix (pat : List Char) : List Char → Bool
  | [] => pat.isEmpty
  | c :: rest => pat.isPrefixOf (c :: rest) || listIsInfix pat rest

/-- Python `pat in s` on strings. -/
def strContains (s pat : String) : Bool := listIsInfix pat.data s.data

/-- Python str.lower(), character by character. -/
def strLower (s : String) : String := String.mk (s.data.map Char.toLower)

/-- Python str.upper(), character by character. -/
def strUpper (s : String) : String := String.mk (s.data.map Char.toUpper)

/-- Python str.strip(): drop whitespace from both ends. -/
def strTrim (s : String) : String :=
  String.mk (((s.data.dropWhile Char.isWhitespace).reverse.dropWhile
    Char.isWhitespace).reverse)

/-- Character class [a-zA-Z0-9_-] used by all three folder-id regex patterns. -/
def isIdChar (c : Char) : Bool := c.isAlpha || c.isDigit || c == '_' || c == '-'

/-- re.search for a pattern of the shape lit([a-zA-Z0-9_-]+): scan positions
left to right; at the first position where the literal is a prefix and at
least one id character follows, return the maximal (greedy) run of id
characters after the literal; otherwise no match. -/
def reSearchCapture (lit : List Char) : List Char → Option String
  | [] => none
  | c :: rest =>
    if lit.isPrefixOf (c :: rest) then
      let cap := ((c :: rest).drop lit.length).takeWhile isIdChar
      if cap.isEmpty then reSearchCapture lit rest else some (String.mk cap)
    else reSearchCapture lit rest

/-- extract_folder_id (extract_lesson_plans.py lines 22-39): try the three
Drive URL patterns in fixed order and return the first capture; a falsy
(empty) url yields None. -/
def extract_folder_id (url : String) : Option String :=
  if url == "" then none
  else
    match reSearchCapture "/folders/".data url.data with
    | some s => some s
    | none =>
      match reSearchCapture "/d/".data url.data with
      | some s => some s
      | none => reSearchCapture "id=".data url.data

/-- One child record of a Drive folder listing, with the fields the script
requests: name, mimeType, webViewLink. -/
structure DriveFile where
  name : String
  mimeType : String
  webViewLink : String
deriving DecidableEq

/-- Tier 1 (lines 93-101): name contains both "finalized" and "lessonplan"
case-insensitively; no type check. -/
def tier1 (f : DriveFile) : Bool :=
  strContains (strLower f.name) "finalized" && strContains (strLower f.name) "lessonplan"

/-- Tier 2 (lines 103-111): a lesson-plan naming variant in the lowered name
and one of the document/word/text/pdf markers in the raw mimeType. -/
def tier2 (f : DriveFile) : Bool :=
  (strContains (strLower f.name) "lessonplan" || strContains (strLower f.name) "lesson plan" ||
      strContains (strLower f.name) "lesson_plan") &&
    (strContains f.mimeType "document" || strContains f.mimeType "word" ||
      strContains f.mimeType "text" || strContains f.mimeType "pdf")

/-- Tier 3 (lines 113-120): "lesson" in the lowered name and a
document/word/pdf marker in the mimeType. -/
def tier3 (f : DriveFile) : Bool :=
  strContains (strLower f.name) "lesson" &&
    (strContains f.mimeType "document" || strContains f.mimeType "word" ||
      strContains f.mimeType "pdf")

/-- Tier 4 (lines 122-127): any native Google doc or word-processing file,
name ignored. -/
def tier4 (f : DriveFile) : Bool :=
  strContains f.mimeType "google-apps.document" || strContains f.mimeType "word"

/-- The four-tier scan of find_lesson_plan_in_folder (lines 93-130): four
sequential full passes over the listing, each returning the first file
satisfying its tier predicate; None when no tier matches. -/
def selectLessonPlan (files : List DriveFile) : Option String :=
  match files.find? tier1 with
  | some f => some f.webViewLink
  | none =>
    match files.find? tier2 with
    | some f => some f.webViewLink
    | none =>
      match files.find? tier3 with
      | some f => some f.webViewLink
      | none =>
        match files.find? tier4 with
        | some f => some f.webViewLink
        | none => none

/-- find_lesson_plan_in_folder (lines 54-142): the first argument is the
outcome of the trashed-filtered listing query, the second the outcome of the
unfiltered retry that runs only when the first query succeeds with an empty
list; any raised service fault is caught and converted to None. -/
def find_lesson_plan_in_folder (r1 r2 : Except String (List DriveFile)) : Option String :=
  match r1 with
  | .error _ => none
  | .ok files =>
    match files with
    | [] =>
      match r2 with
      | .error _ => none
      | .ok files2 => selectLessonPlan files2
    | _ => selectLessonPlan files

/-- Diagnostic classes printed by the except-branch of
find_lesson_plan_in_folder (lines 132-142). -/
inductive DriveErrorClass where
  | permission
  | notFound
  | unknown
deriving DecidableEq

/-- Classification of a caught listing fault (lines 137-141): "403" in the
message or "forbidden" in its lowering means permission; otherwise "404"
means not-found; otherwise unknown. -/
def classifyDriveError (msg : String) : DriveErrorClass :=
  if strContains msg "403" || strContains (strLower msg) "forbidden" then .permission
  else if strContains msg "404" then .notFound
  else .unknown

/-- The listing service as seen by one run: for a folder id, the outcomes of
the filtered query and of the unfiltered retry. -/
def RosterOracle : Type :=
  String → Except String (List DriveFile) × Except String (List DriveFile)

/-- Processing of one CSV row by main (extract_lesson_plans.py lines
188-222): rows with at most 6 cells missing column F are skipped; the ready
flag, lesson id and folder url are the trimmed cells A, E, F; a FALSE ready
flag skips; empty id or url skips; then folder-id resolution, selection, and
a truthiness check on the returned link gate the produced pair. -/
def processRow (oracle : RosterOracle) (row : List String) : Option (String × String) :=
  if 5 < row.length then
    let lessonId := strTrim (row.getD 0 "")
    let readyStatus := strTrim (row.getD 4 "")
    let folderUrl := strTrim (row.getD 5 "")
    if strUpper readyStatus == "FALSE" then none
    else if lessonId != "" && folderUrl != "" then
      match extract_folder_id folderUrl with
      | some folderId =>
        match find_lesson_plan_in_folder (oracle folderId).1 (oracle folderId).2 with
        | some url => if url != "" then some (lessonId, url) else none
        | none => none
      | none => none
    else none
  else none

/-- The whole row loop: the list of (lesson id, link) singletons appended to
results, in row order. -/
def processRows (oracle : RosterOracle) (rows : List (List String)) :
    List (String × String) :=
  rows.filterMap (processRow oracle)

/-- Python dict update with a singleton {k: v} (lines 227-229): replace the
value at the first occurrence of k, keeping its position, else append. -/
def dictUpdate : List (String × String) → String → String → List (String × String)
  | [], k, v => [(k, v)]
  | p :: rest, k, v => if p.1 == k then (k, v) :: rest else p :: dictUpdate rest k v

/-- Python dict lookup on the model: value of the first pair whose key
matches. -/
def dictLookup (d : List (String × String)) (k : String) : Option String :=
  (d.find? (fun p => p.1 == k)).map (fun p => p.2)

/-- final_results construction (lines 226-229): fold the singleton dicts into
one dict with update. -/
def buildFinalResults (results : List (String × String)) : List (String × String) :=
  results.foldl (fun acc kv => dictUpdate acc kv.1 kv.2) []

/-- Modelled from the spec: a plain insert-or-overwrite mapping built from
the processed pairs in order, later insertions overwriting earlier ones
(spec section 9, duplicate-key aggregation). -/
def specInsertOrOverwrite (pairs : List (String × String)) : String → Option String :=
  pairs.foldl (fun m kv => fun q => if q == kv.1 then some kv.2 else m q) (fun _ => none)

/-- Whether a sheet row matches the column-A scan of GoogleSheetsWriterTool:
the row is nonempty and its first cell equals the searched value
(custom_tool.py line 104). -/
def rowMatches (v : String) (row : List String) : Bool :=
  match row with
  | [] => false
  | x :: _ => x == v

/-- The row-location scan of GoogleSheetsWriterTool._run (custom_tool.py
lines 103-107): first matching row wins, 1-indexed; None when no row
matches. -/
def find_row_number (columnAValues : List (List String)) (v : String) : Option Nat :=
  match columnAValues with
  | [] => none
  | row :: rest =>
    if rowMatches v row then some 1
    else (find_row_number rest v).map (fun n => n + 1)

/-- Outcome of GoogleSheetsWriterTool._run after the service reads column A
(custom_tool.py lines 99-124): the targeted range (None when the scan fails)
and the returned status message; no exception escapes. -/
def googleSheetsWriterRun (tabName : String) (columnAValues : List (List String))
    (columnAValue columnLetter : String) : Option String × String :=
  match find_row_number columnAValues columnAValue with
  | none => (none, "Error: Could not find row with column A value " ++ columnAValue)
  | some n =>
    let targetRange := "\x27" ++ tabName ++ "\x27!" ++ columnLetter ++ toString n
    (some targetRange, "Successfully wrote to cell " ++ targetRange)

/-- The per-entry batch around the writer: each entry is handled
independently, so the batch result is the map of the per-entry results. -/
def runSheetsBatch (tabName : String) (columnAValues : List (List String))
    (columnLetter : String) (entries : List String) : List (Option String × String) :=
  entries.map (fun v => googleSheetsWriterRun tabName columnAValues v columnLetter)

/-- JSON values as loaded by json.load in main.py. -/
inductive Json where
  | str : String → Json
  | num : Int → Json
  | obj : List (String × Json) → Json
  | arr : List Json → Json

/-- Python iteration over the loaded value (main.py line 32): a dict yields
its keys as strings, a list its elements, a string its characters; a number
is not iterable. -/
def jsonIterItems : Json → Except String (List Json)
  | .obj fields => .ok (fields.map (fun f => Json.str f.1))
  | .arr xs => .ok xs
  | .str s => .ok (s.data.map (fun c => Json.str (String.mk [c])))
  | .num _ => .error "TypeError: int object is not iterable"

/-- Python subscript item[key] (main.py lines 28-29): field lookup on a
dict; a TypeError on a string; a KeyError when the field is absent. -/
def jsonGetField : Json → String → Except String Json
  | .obj fields, k =>
    match fields.find? (fun f => f.1 == k) with
    | some f => .ok f.2
    | none => .error ("KeyError: " ++ k)
  | .str _, _ => .error "TypeError: string indices must be integers"
  | _, _ => .error "TypeError: value is not subscriptable"

/-- The input_array comprehension body (main.py lines 26-33), one record per
iterated item: columnA then docurl are subscripted, the first failure
raising out of the construction. -/
def buildInputRecords (sid : String) : List Json → Except String (List (Json × Json × String))
  | [] => .ok []
  | item :: rest =>
    match jsonGetField item "columnA" with
    | .error e => .error e
    | .ok a =>
      match jsonGetField item "docurl" with
      | .error e => .error e
      | .ok u =>
        match buildInputRecords sid rest with
        | .error e => .error e
        | .ok tail => .ok ((a, u, sid) :: tail)

/-- Construction of input_array from the deserialized lesson_plan_urls.json
(main.py lines 23-33). -/
def buildInputs (sid : String) (lessonData : Json) :
    Except String (List (Json × Json × String)) :=
  match jsonIterItems lessonData with
  | .error e => .error e
  | .ok items => buildInputRecords sid items

/-- The object literal the extractor serializes (extract_lesson_plans.py
lines 226-234): one field per mapping entry, the link as a JSON string. -/
def serializeMapping (m : List (String × String)) : Json :=
  Json.obj (m.map (fun p => (p.1, Json.str p.2)))

/-- A fixed oracle whose folders all list empty, used to instantiate
roster-walk statements on concrete rows. -/
def emptyOracle : RosterOracle := fun _ => (.ok [], .ok [])

/-! Helper lemmas about the first-match scans. -/

theorem find?_decomp {α : Type} (p : α → Bool) :
    ∀ (l : List α) (a : α), l.find? p = some a →
      ∃ pre post, l = pre ++ a :: post ∧ p a = true ∧ ∀ g ∈ pre, p g = false
  | [], a, h => by simp [List.find?] at h
  | x :: xs, a, h => by
    cases hx : p x with
    | true =>
      rw [List.find?_cons_of_pos _ hx] at h
      obtain rfl : x = a := by injection h
      exact ⟨[], xs, rfl, hx, by simp⟩
    | false =>
      rw [List.find?_cons_of_neg _ (by simp [hx])] at h
      obtain ⟨pre, post, hl, hpa, hpre⟩ := find?_decomp p xs a h
      refine ⟨x :: pre, post, by simp [hl], hpa, ?_⟩
      intro g hg
      rcases List.mem_cons.mp hg with rfl | hg
      · exact hx
      · exact hpre g hg

theorem find?_of_exists {α : Type} (p : α → Bool) (l : List α)
    (h : ∃ a ∈ l, p a = true) : ∃ a, l.find? p = some a := by
  obtain ⟨a, ha, hpa⟩ := h
  cases hf : l.find? p with
  | some b => exact ⟨b, rfl⟩
  | none => exact absurd hpa (by simpa using List.find?_eq_none.mp hf a ha)

theorem find?_skip {α : Type} (p : α → Bool) (f : α) (hf : p f = false) :
    ∀ (pre post : List α), (pre ++ f :: post).find? p = (pre ++ post).find? p
  | [], post => by
    simpa using List.find?_cons_of_neg post (by simp [hf])
  | x :: pre, post => by
    cases hx : p x with
    | true => simp [List.find?_cons_of_pos _ hx]
    | false =>
      simp only [List.cons_append, List.find?_cons_of_neg _ (by simp [hx] : ¬p x = true)]
      exact find?_skip p f hf pre post

/-- A file failing every tier is transparent to the four-tier scan. -/
theorem selectLessonPlan_skip (f : DriveFile) (pre post : List DriveFile)
    (h1 : tier1 f = false) (h2 : tier2 f = false)
    (h3 : tier3 f = false) (h4 : tier4 f = false) :
    selectLessonPlan (pre ++ f :: post) = selectLessonPlan (pre ++ post) := by
  simp only [selectLessonPlan]
  rw [find?_skip tier1 f h1, find?_skip tier2 f h2, find?_skip tier3 f h3,
    find?_skip tier4 f h4]

/-- Claim C1: a listing containing a file whose lowered name contains both
"finalized" and "lessonplan" makes the Selector return a tier-1 file link
(the first such file in listing order), with no condition on mime types or
on the other files present. -/
theorem c1_tier1_dominance (files : List DriveFile)
    (h : ∃ f ∈ files, tier1 f = true) :
    ∃ pre f post, files = pre ++ f :: post ∧ tier1 f = true ∧
      (∀ g ∈ pre, tier1 g = false) ∧ selectLessonPlan files = some f.webViewLink := by
  obtain ⟨g, hg⟩ := find?_of_exists tier1 files h
  obtain ⟨pre, post, hl, hpg, hpre⟩ := find?_decomp tier1 files g hg
  exact ⟨pre, g, post, hl, hpg, hpre, by simp [selectLessonPlan, hg]⟩

/-- Witness for C1 on a single-file listing of a tier-1-named image file. -/
theorem c1_tier1_dominance_witness :
    ∃ pre f post,
      ([⟨"FINALIZED Unit3_LessonPlan", "image/png", "W"⟩] : List DriveFile) =
        pre ++ f :: post ∧ tier1 f = true ∧ (∀ g ∈ pre, tier1 g = false) ∧
      selectLessonPlan [⟨"FINALIZED Unit3_LessonPlan", "image/png", "W"⟩] =
        some f.webViewLink :=
  c1_tier1_dominance _ ⟨⟨"FINALIZED Unit3_LessonPlan", "image/png", "W"⟩, by simp, by decide⟩

/-- Claim C2, counterexample: a listing whose only file is named
"FINALIZED_Unit3_LessonPlan" with a spreadsheet mimeType. Its name contains
"lessonplan" (case-insensitively) and it is the only such file, yet the
Selector returns its link "L1", because tier 1 ignores the type. -/
theorem c2_counterexample :
    strContains (strLower (DriveFile.name ⟨"FINALIZED_Unit3_LessonPlan",
      "application/vnd.google-apps.spreadsheet", "L1"⟩)) "lessonplan" = true ∧
    DriveFile.mimeType ⟨"FINALIZED_Unit3_LessonPlan",
      "application/vnd.google-apps.spreadsheet", "L1"⟩ =
        "application/vnd.google-apps.spreadsheet" ∧
    selectLessonPlan [⟨"FINALIZED_Unit3_LessonPlan",
      "application/vnd.google-apps.spreadsheet", "L1"⟩] = some "L1" := by
  decide

/-- Claim C2 as amended: provided the spreadsheet-typed file's name does not
also contain "finalized" (so it is not a tier-1 match), a file whose lowered
name contains "lessonplan" but whose mimeType is the spreadsheet type is
never selected: tiers 2, 3 and 4 all reject the spreadsheet type, tier 1
fails without "finalized", and selection proceeds exactly as if the file
were absent (falling through to lower tiers over the other files or to
"none found"). -/
theorem c2_spreadsheet_not_selected (pre post : List DriveFile) (f : DriveFile)
    (hmime : f.mimeType = "application/vnd.google-apps.spreadsheet")
    ( _hname : strContains (strLower f.name) "lessonplan" = true)
    (hfin : strContains (strLower f.name) "finalized" = false)
    ( _honly : ∀ g ∈ pre ++ post, strContains (strLower g.name) "lessonplan" = false) :
    selectLessonPlan (pre ++ f :: post) = selectLessonPlan (pre ++ post) := by
  have hdoc : strContains f.mimeType "document" = false := by rw [hmime]; decide
  have hword : strContains f.mimeType "word" = false := by rw [hmime]; decide
  have htext : strContains f.mimeType "text" = false := by rw [hmime]; decide
  have hpdf : strContains f.mimeType "pdf" = false := by rw [hmime]; decide
  have hgdoc : strContains f.mimeType "google-apps.document" = false := by
    rw [hmime]; decide
  exact selectLessonPlan_skip f pre post (by simp [tier1, hfin])
    (by simp [tier2, hdoc, hword, htext, hpdf]) (by simp [tier3, hdoc, hword, hpdf])
    (by simp [tier4, hgdoc, hword])

/-- Witness for the amended C2: a lone non-finalized spreadsheet named like a
lesson plan leads to the same outcome as an empty listing. -/
theorem c2_spreadsheet_not_selected_witness :
    selectLessonPlan ([] ++ ⟨"Unit3_LessonPlan",
      "application/vnd.google-apps.spreadsheet", "L1"⟩ :: []) =
      selectLessonPlan ([] ++ []) :=
  c2_spreadsheet_not_selected [] [] _ rfl (by decide) (by decide) (by simp)

/-- Claim C3: when no file matches tier 1 and some file matches tier 2, the
Selector returns the link of the first tier-2 file in listing order, with no
secondary ranking. -/
theorem c3_tier2_first_in_listing_order (files : List DriveFile)
    (h1 : ∀ f ∈ files, tier1 f = false)
    (h2 : ∃ f ∈ files, tier2 f = true) :
    ∃ pre f post, files = pre ++ f :: post ∧ tier2 f = true ∧
      (∀ g ∈ pre, tier2 g = false) ∧ selectLessonPlan files = some f.webViewLink := by
  have hnone : files.find? tier1 = none :=
    List.find?_eq_none.mpr (fun x hx => by simp [h1 x hx])
  obtain ⟨g, hg⟩ := find?_of_exists tier2 files h2
  obtain ⟨pre, post, hl, hpg, hpre⟩ := find?_decomp tier2 files g hg
  exact ⟨pre, g, post, hl, hpg, hpre, by simp [selectLessonPlan, hnone, hg]⟩

/-- Witness for C3: a PDF syllabus listed before a PDF lesson plan; the
lesson plan (second in listing order, first tier-2 match) is returned. -/
theorem c3_tier2_first_in_listing_order_witness :
    ∃ pre f post,
      ([⟨"Unit3_Syllabus", "application/pdf", "S"⟩,
        ⟨"Unit3 Lesson Plan", "application/pdf", "B"⟩] : List DriveFile) =
        pre ++ f :: post ∧ tier2 f = true ∧ (∀ g ∈ pre, tier2 g = false) ∧
      selectLessonPlan [⟨"Unit3_Syllabus", "application/pdf", "S"⟩,
        ⟨"Unit3 Lesson Plan", "application/pdf", "B"⟩] = some f.webViewLink :=
  c3_tier2_first_in_listing_order _ (by decide)
    ⟨⟨"Unit3 Lesson Plan", "application/pdf", "B"⟩, by simp, by decide⟩

/-- Claim C4: on an empty folder listing the Selector returns "none found":
the four-tier scan of an empty list yields None, and the full
find_lesson_plan_in_folder boundary (empty filtered listing, empty retry
listing) also yields None; both are total functions, so no exception is
possible in the embedding. -/
theorem c4_empty_listing_none :
    selectLessonPlan [] = none ∧
    find_lesson_plan_in_folder (Except.ok []) (Except.ok []) = none := by
  exact ⟨rfl, rfl⟩

/-- Claim C5: a service fault while listing a folder is converted into the
"none found" outcome; the caught message is classified as permission
(contains "403" or, lowered, "forbidden"), not-found (otherwise contains
"404") or unknown; and a row producing no result never affects the
processing of the surrounding rows. -/
theorem c5_fault_converted_to_none (msg : String)
    (r2 : Except String (List DriveFile)) (oracle : RosterOracle)
    (rows1 rows2 : List (List String)) (row : List String)
    (hrow : processRow oracle row = none) :
    find_lesson_plan_in_folder (Except.error msg) r2 = none ∧
    (classifyDriveError msg = DriveErrorClass.permission ↔
      (strContains msg "403" = true ∨ strContains (strLower msg) "forbidden" = true)) ∧
    (classifyDriveError msg = DriveErrorClass.notFound ↔
      (¬(strContains msg "403" = true ∨ strContains (strLower msg) "forbidden" = true) ∧
        strContains msg "404" = true)) ∧
    (classifyDriveError msg = DriveErrorClass.unknown ↔
      (¬(strContains msg "403" = true ∨ strContains (strLower msg) "forbidden" = true) ∧
        strContains msg "404" = false)) ∧
    processRows oracle (rows1 ++ row :: rows2) =
      processRows oracle rows1 ++ processRows oracle rows2 := by
  refine ⟨rfl, ?_, ?_, ?_, ?_⟩
  · by_cases h403 : strContains msg "403" = true <;>
      by_cases hforb : strContains (strLower msg) "forbidden" = true <;>
      by_cases h404 : strContains msg "404" = true <;>
      simp [classifyDriveError, h403, hforb, h404]
  · by_cases h403 : strContains msg "403" = true <;>
      by_cases hforb : strContains (strLower msg) "forbidden" = true <;>
      by_cases h404 : strContains msg "404" = true <;>
      simp [classifyDriveError, h403, hforb, h404]
  · by_cases h403 : strContains msg "403" = true <;>
      by_cases hforb : strContains (strLower msg) "forbidden" = true <;>
      by_cases h404 : strContains msg "404" = true <;>
      simp [classifyDriveError, h403, hforb, h404]
  · simp [processRows, List.filterMap_append, List.filterMap_cons, hrow]

/-- Witness for C5: a 403 fault on a first row leaves the processing of the
remaining roster rows unchanged, and the fault itself maps to None with a
permission classification. -/
theorem c5_fault_converted_to_none_witness :
    find_lesson_plan_in_folder (Except.error "HttpError 403 when listing")
      (Except.ok []) = none ∧
    classifyDriveError "HttpError 403 when listing" = DriveErrorClass.permission ∧
    processRows emptyOracle ([["fine"]] ++ ["bad"] :: [["alsofine"]]) =
      processRows emptyOracle [["fine"]] ++ processRows emptyOracle [["alsofine"]] := by
  have h := c5_fault_converted_to_none "HttpError 403 when listing" (Except.ok [])
    emptyOracle [["fine"]] [["alsofine"]] ["bad"] rfl
  exact ⟨h.1, h.2.1.mpr (Or.inl (by decide)), h.2.2.2.2⟩

/-- On a nonempty url the resolver is exactly the three-pattern priority
chain. -/
theorem extract_folder_id_eq (url : String) (hu : url ≠ "") :
    extract_folder_id url =
      match reSearchCapture "/folders/".data url.data with
      | some s => some s
      | none =>
        match reSearchCapture "/d/".data url.data with
        | some s => some s
        | none => reSearchCapture "id=".data url.data := by
  simp [extract_folder_id, beq_eq_false_iff_ne.mpr hu]

/-- Claim C6: the Folder Reference Resolver tries the /folders/<id>, /d/<id>
and id=<id> patterns in this fixed order, returns the capture of the first
pattern that matches, and yields None when none matches; in particular on
the three spec example shapes it produces "ABC123", "XYZ_9-9" and "Q1W2",
and a URL with none of the shapes gives None. It is a total function, so it
never raises. -/
theorem c6_resolver_priority (url : String) (s : String) :
    (reSearchCapture "/folders/".data url.data = some s →
      extract_folder_id url = some s) ∧
    (reSearchCapture "/folders/".data url.data = none →
      reSearchCapture "/d/".data url.data = some s →
      extract_folder_id url = some s) ∧
    (reSearchCapture "/folders/".data url.data = none →
      reSearchCapture "/d/".data url.data = none →
      extract_folder_id url = reSearchCapture "id=".data url.data) ∧
    extract_folder_id "https://drive.google.com/drive/folders/ABC123" = some "ABC123" ∧
    extract_folder_id "https://docs.google.com/document/d/XYZ_9-9/edit" = some "XYZ_9-9" ∧
    extract_folder_id "https://drive.google.com/open?id=Q1W2" = some "Q1W2" ∧
    extract_folder_id "https://example.com/plain" = none := by
  have hcases : url = "" ∨ url ≠ "" := em _
  refine ⟨?_, ?_, ?_, by decide, by decide, by decide, by decide⟩
  · intro h1
    rcases hcases with rfl | hu
    · rw [show ("" : String).data = [] from rfl] at h1
      simp [reSearchCapture] at h1
    · rw [extract_folder_id_eq url hu, h1]
  · intro h1 h2
    rcases hcases with rfl | hu
    · rw [show ("" : String).data = [] from rfl] at h2
      simp [reSearchCapture] at h2
    · rw [extract_folder_id_eq url hu, h1, h2]
  · intro h1 h2
    rcases hcases with rfl | hu
    · rw [show ("" : String).data = [] from rfl]
      simp [extract_folder_id, reSearchCapture]
    · rw [extract_folder_id_eq url hu, h1, h2]

/-- Witness for C6: the /d/ pattern fires only after the /folders/ pattern
has failed, on the document-link example. -/
theorem c6_resolver_priority_witness :
    extract_folder_id "https://docs.google.com/document/d/XYZ_9-9/edit" =
      some "XYZ_9-9" :=
  (c6_resolver_priority "https://docs.google.com/document/d/XYZ_9-9/edit"
    "XYZ_9-9").2.1 (by decide) (by decide)

/-- Claim C7, counterexample: the row ["L1","x","x","x","","no-patterns-here"]
has a readiness flag that is not "false" (it is blank), a nonempty trimmed
lessonId and a nonempty trimmed folder reference, yet it is excluded from
the output mapping (under a service where every folder lists empty, though
the service is never even consulted), because its folder reference matches
no URL pattern. So exclusion is not equivalent to the claimed three
conditions. -/
theorem c7_counterexample :
    strUpper (strTrim (["L1", "x", "x", "x", "", "no-patterns-here"].getD 4 "")) ≠
      "FALSE" ∧
    strTrim (["L1", "x", "x", "x", "", "no-patterns-here"].getD 0 "") ≠ "" ∧
    strTrim (["L1", "x", "x", "x", "", "no-patterns-here"].getD 5 "") ≠ "" ∧
    processRow emptyOracle ["L1", "x", "x", "x", "", "no-patterns-here"] = none := by
  decide

/-- Claim C7 as amended: a row contributes no entry to the output mapping if
and only if it is short (no column F), its trimmed readiness flag uppercases
to "FALSE", its trimmed lessonId is empty, its trimmed folder reference is
empty, the folder reference resolves to no folder id, or the selection over
the listed folder yields no link (or an empty link, which the truthiness
check on the result also drops). The readiness skip is tested before
anything else, so it applies even to otherwise valid rows. -/
theorem c7_roster_exclusion_characterization (oracle : RosterOracle)
    (row : List String) :
    processRow oracle row = none ↔
      (row.length ≤ 5 ∨
        strUpper (strTrim (row.getD 4 "")) = "FALSE" ∨
        strTrim (row.getD 0 "") = "" ∨
        strTrim (row.getD 5 "") = "" ∨
        extract_folder_id (strTrim (row.getD 5 "")) = none ∨
        ∃ fid, extract_folder_id (strTrim (row.getD 5 "")) = some fid ∧
          (find_lesson_plan_in_folder (oracle fid).1 (oracle fid).2 = none ∨
            find_lesson_plan_in_folder (oracle fid).1 (oracle fid).2 = some "")) := by
  simp only [processRow]
  split
  case isFalse hlen => exact iff_of_true rfl (Or.inl (Nat.not_lt.mp hlen))
  case isTrue hlen =>
    split
    case isTrue hready =>
      exact iff_of_true rfl (Or.inr (Or.inl (beq_iff_eq.mp hready)))
    case isFalse hready =>
      split
      case isTrue hand =>
        rw [Bool.and_eq_true, bne_iff_ne, bne_iff_ne] at hand
        split
        case h_1 fid hex =>
          split
          case h_1 url hfind =>
            split
            case isTrue hurl =>
              rw [bne_iff_ne] at hurl
              refine iff_of_false (by simp) ?_
              rintro (h | h | h | h | h | ⟨fid2, hfid2, hor⟩)
              · omega
              · exact hready (beq_iff_eq.mpr h)
              · exact hand.1 h
              · exact hand.2 h
              · rw [hex] at h; exact Option.noConfusion h
              · rw [hex] at hfid2
                obtain rfl : fid = fid2 := Option.some_injective _ hfid2
                rcases hor with h | h
                · rw [hfind] at h; exact Option.noConfusion h
                · rw [hfind] at h
                  exact hurl (Option.some_injective _ h)
            case isFalse hurl =>
              rw [bne_iff_ne, not_not] at hurl
              refine iff_of_true rfl (Or.inr (Or.inr (Or.inr (Or.inr (Or.inr
                ⟨fid, hex, Or.inr ?_⟩)))))
              rw [hfind, hurl]
          case h_2 hfind =>
            exact iff_of_true rfl (Or.inr (Or.inr (Or.inr (Or.inr (Or.inr
              ⟨fid, hex, Or.inl hfind⟩)))))
        case h_2 hex =>
          exact iff_of_true rfl (Or.inr (Or.inr (Or.inr (Or.inr (Or.inl hex)))))
      case isFalse hand =>
        rw [Bool.and_eq_true, bne_iff_ne, bne_iff_ne] at hand
        rw [Decidable.not_and_iff_or_not, not_not, not_not] at hand
        rcases hand with h | h
        · exact iff_of_true rfl (Or.inr (Or.inr (Or.inl h)))
        · exact iff_of_true rfl (Or.inr (Or.inr (Or.inr (Or.inl h))))

/-- Lookup on a nonempty dict model. -/
theorem dictLookup_cons (p : String × String) (l : List (String × String)) (k : String) :
    dictLookup (p :: l) k = if p.1 == k then some p.2 else dictLookup l k := by
  simp only [dictLookup, List.find?]
  cases h : (p.1 == k) with
  | true => simp [h]
  | false => simp [h]

/-- Updating the dict then looking up behaves as a pointwise overwrite. -/
theorem dictLookup_dictUpdate :
    ∀ (d : List (String × String)) (k0 v k : String),
      dictLookup (dictUpdate d k0 v) k = if k = k0 then some v else dictLookup d k
  | [], k0, v, k => by
    by_cases hk : k = k0
    · simp [dictUpdate, dictLookup_cons, hk]
    · simp [dictUpdate, dictLookup_cons, hk, beq_eq_false_iff_ne.mpr (Ne.symm hk),
        dictLookup]
  | p :: rest, k0, v, k => by
    by_cases hp : p.1 = k0
    · simp only [dictUpdate, beq_iff_eq.mpr hp, if_true]
      by_cases hk : k = k0
      · simp [dictLookup_cons, hk]
      · simp [dictLookup_cons, hk, beq_eq_false_iff_ne.mpr (Ne.symm hk),
          beq_eq_false_iff_ne.mpr (show p.1 ≠ k from hp ▸ Ne.symm hk)]
    · simp only [dictUpdate, beq_eq_false_iff_ne.mpr hp, Bool.false_eq_true, if_false]
      by_cases hpk : p.1 = k
      · have hk : ¬k = k0 := fun h => hp (hpk.trans h)
        simp [dictLookup_cons, beq_iff_eq.mpr hpk, hk]
      · simp [dictLookup_cons, beq_eq_false_iff_ne.mpr hpk,
          dictLookup_dictUpdate rest k0 v k]

/-- Members of an updated dict come from the dict or are the new pair. -/
theorem mem_dictUpdate :
    ∀ (d : List (String × String)) (k0 v : String) (q : String × String),
      q ∈ dictUpdate d k0 v → q ∈ d ∨ q = (k0, v)
  | [], k0, v, q => by simp [dictUpdate]
  | p :: rest, k0, v, q => by
    by_cases hp : p.1 = k0
    · simp only [dictUpdate, beq_iff_eq.mpr hp, if_true]
      intro h
      rcases List.mem_cons.mp h with rfl | h
      · exact Or.inr rfl
      · exact Or.inl (List.mem_cons_of_mem _ h)
    · simp only [dictUpdate, beq_eq_false_iff_ne.mpr hp, Bool.false_eq_true, if_false]
      intro h
      rcases List.mem_cons.mp h with rfl | h
      · exact Or.inl (List.mem_cons_self _ _)
      · rcases mem_dictUpdate rest k0 v q h with h2 | h2
        · exact Or.inl (List.mem_cons_of_mem _ h2)
        · exact Or.inr h2

/-- Updating preserves distinctness of the keys. -/
theorem pairwise_dictUpdate :
    ∀ (d : List (String × String)) (k0 v : String),
      d.Pairwise (fun p q => p.1 ≠ q.1) →
      (dictUpdate d k0 v).Pairwise (fun p q => p.1 ≠ q.1)
  | [], k0, v, _ => by simp [dictUpdate]
  | p :: rest, k0, v, h => by
    rw [List.pairwise_cons] at h
    obtain ⟨hp, hrest⟩ := h
    by_cases hpk : p.1 = k0
    · simp only [dictUpdate, beq_iff_eq.mpr hpk, if_true]
      rw [List.pairwise_cons]
      exact ⟨fun q hq => hpk ▸ hp q hq, hrest⟩
    · simp only [dictUpdate, beq_eq_false_iff_ne.mpr hpk, Bool.false_eq_true, if_false]
      rw [List.pairwise_cons]
      refine ⟨?_, pairwise_dictUpdate rest k0 v hrest⟩
      intro q hq
      rcases mem_dictUpdate rest k0 v q hq with hq2 | hq2
      · exact hp q hq2
      · rw [hq2]
        exact hpk

/-- The fold of singleton updates agrees pointwise with the fold of plain
functional overwrites, for any agreeing starting points. -/
theorem foldUpdate_lookup :
    ∀ (pairs : List (String × String)) (d : List (String × String))
      (m : String → Option String), (∀ q, dictLookup d q = m q) →
      ∀ k, dictLookup (pairs.foldl (fun acc kv => dictUpdate acc kv.1 kv.2) d) k =
        (pairs.foldl (fun mm kv => fun q => if q == kv.1 then some kv.2 else mm q) m) k
  | [], d, m, hdm, k => by simpa using hdm k
  | kv :: rest, d, m, hdm, k => by
    simp only [List.foldl_cons]
    refine foldUpdate_lookup rest _ _ ?_ k
    intro q
    rw [dictLookup_dictUpdate]
    by_cases hq : q = kv.1
    · simp [hq]
    · simp [hq, beq_eq_false_iff_ne.mpr hq, hdm q]

/-- Folding singleton updates from a key-distinct dict keeps keys distinct. -/
theorem foldUpdate_pairwise :
    ∀ (pairs : List (String × String)) (d : List (String × String)),
      d.Pairwise (fun p q => p.1 ≠ q.1) →
      (pairs.foldl (fun acc kv => dictUpdate acc kv.1 kv.2) d).Pairwise
        (fun p q => p.1 ≠ q.1)
  | [], _, h => h
  | kv :: rest, d, h =>
    foldUpdate_pairwise rest _ (pairwise_dictUpdate d kv.1 kv.2 h)

/-- Claim C8: the list-of-singleton-dicts accumulation followed by the
update-merge is equivalent to a plain insert-or-overwrite mapping: lookups
in the merged dict agree with the spec-side insert-or-overwrite mapping (so
a duplicated lessonId holds the link of the later-processed row), and the
merged dict holds at most one entry per key. -/
theorem c8_merge_equals_insert_or_overwrite (results : List (String × String))
    (k : String) :
    dictLookup (buildFinalResults results) k = specInsertOrOverwrite results k ∧
    (buildFinalResults results).Pairwise (fun p q => p.1 ≠ q.1) := by
  constructor
  · exact foldUpdate_lookup results [] (fun _ => none) (fun _ => rfl) k
  · exact foldUpdate_pairwise results [] (by simp)

/-- A successful row scan names the first matching row, 1-indexed. -/
theorem find_row_number_some :
    ∀ (colA : List (List String)) (v : String) (n : Nat),
      find_row_number colA v = some n →
      ∃ pre row post, colA = pre ++ row :: post ∧ n = pre.length + 1 ∧
        rowMatches v row = true ∧ ∀ r ∈ pre, rowMatches v r = false
  | [], v, n, h => by simp [find_row_number] at h
  | row :: rest, v, n, h => by
    by_cases hm : rowMatches v row = true
    · rw [find_row_number, if_pos hm] at h
      obtain rfl : (1 : Nat) = n := by injection h
      exact ⟨[], row, rest, rfl, rfl, hm, by simp⟩
    · have hm2 : rowMatches v row = false := by simpa using hm
      rw [find_row_number, if_neg (by simp [hm2])] at h
      obtain ⟨m, hm3, hn⟩ := Option.map_eq_some'.mp h
      obtain ⟨pre, r0, post, hc, hlen, hmr, hpre⟩ := find_row_number_some rest v m hm3
      subst hn
      refine ⟨row :: pre, r0, post, by simp [hc], by simp [hlen], hmr, ?_⟩
      intro r hr
      rcases List.mem_cons.mp hr with rfl | hr
      · exact hm2
      · exact hpre r hr

/-- A failed row scan means no row matched. -/
theorem find_row_number_none :
    ∀ (colA : List (List String)) (v : String),
      find_row_number colA v = none → ∀ r ∈ colA, rowMatches v r = false
  | [], _, _ => by simp
  | row :: rest, v, h => by
    by_cases hm : rowMatches v row = true
    · rw [find_row_number, if_pos hm] at h
      exact absurd h (by simp)
    · have hm2 : rowMatches v row = false := by simpa using hm
      rw [find_row_number, if_neg (by simp [hm2])] at h
      intro r hr
      rcases List.mem_cons.mp hr with rfl | hr
      · exact hm2
      · exact find_row_number_none rest v (Option.map_eq_none'.mp h) r hr

/-- Claim C9: the spreadsheet write targets the row found by a linear scan of
column A for an exact match, first matching row winning (1-indexed); when no
row matches, the writer returns an error result (no write target, an error
message, nothing raised) and the per-entry batch keeps processing every
other entry unchanged. -/
theorem c9_sheets_writer_row_scan (tab : String) (colA : List (List String))
    (v colLetter : String) :
    (∀ n, find_row_number colA v = some n →
      ∃ pre row post, colA = pre ++ row :: post ∧ n = pre.length + 1 ∧
        rowMatches v row = true ∧ ∀ r ∈ pre, rowMatches v r = false) ∧
    (find_row_number colA v = none →
      (∀ r ∈ colA, rowMatches v r = false) ∧
      googleSheetsWriterRun tab colA v colLetter =
        (none, "Error: Could not find row with column A value " ++ v)) ∧
    (∀ (pre post : List String) (entry : String),
      runSheetsBatch tab colA colLetter (pre ++ entry :: post) =
        runSheetsBatch tab colA colLetter pre ++
          googleSheetsWriterRun tab colA entry colLetter ::
            runSheetsBatch tab colA colLetter post) :=
  ⟨fun n h => find_row_number_some colA v n h,
    fun h => ⟨find_row_number_none colA v h, by simp [googleSheetsWriterRun, h]⟩,
    fun pre post entry => by simp [runSheetsBatch]⟩

/-- Witness for C9: the scan of [["A"], ["B"]] for "B" lands on row 2, and
scanning [["A"]] for "C" produces the error result. -/
theorem c9_sheets_writer_row_scan_witness :
    (∃ pre row post, ([["A"], ["B"]] : List (List String)) = pre ++ row :: post ∧
      2 = pre.length + 1 ∧ rowMatches "B" row = true ∧
      ∀ r ∈ pre, rowMatches "B" r = false) ∧
    googleSheetsWriterRun "Sheet1" [["A"]] "C" "P" =
      (none, "Error: Could not find row with column A value " ++ "C") :=
  ⟨(c9_sheets_writer_row_scan "Sheet1" [["A"], ["B"]] "B" "P").1 2 rfl,
    ((c9_sheets_writer_row_scan "Sheet1" [["A"]] "C" "P").2.1 rfl).2⟩

/-- Well-shaped items (each subscriptable at columnA and docurl) make the
input_array construction succeed. -/
theorem buildInputRecords_ok :
    ∀ (sid : String) (items : List Json),
      (∀ it ∈ items, (∃ a, jsonGetField it "columnA" = Except.ok a) ∧
        (∃ u, jsonGetField it "docurl" = Except.ok u)) →
      ∃ recs, buildInputRecords sid items = Except.ok recs
  | _, [], _ => ⟨[], rfl⟩
  | sid, item :: rest, h => by
    obtain ⟨⟨a, ha⟩, u, hu⟩ := h item (List.mem_cons_self _ _)
    obtain ⟨tail, htail⟩ := buildInputRecords_ok sid rest
      (fun it hit => h it (List.mem_cons_of_mem _ hit))
    exact ⟨(a, u, sid) :: tail, by simp [buildInputRecords, ha, hu, htail]⟩

/-- Claim C10: the orchestrator's loader needs a sequence of records with
columnA and docurl fields; on the object literal the extractor writes (a
nonempty lessonId-to-link mapping), iteration yields the keys, which are
strings, so the very first subscript raises and input_array is never built;
on an array of records carrying both fields the construction succeeds. -/
theorem c10_orchestrator_input_mismatch (sid : String)
    (pairs : List (String × String)) (items : List Json)
    (hne : pairs ≠ [])
    (hok : ∀ it ∈ items, (∃ a, jsonGetField it "columnA" = Except.ok a) ∧
      (∃ u, jsonGetField it "docurl" = Except.ok u)) :
    (∃ msg, buildInputs sid (serializeMapping pairs) = Except.error msg) ∧
    (∃ recs, buildInputs sid (Json.arr items) = Except.ok recs) := by
  constructor
  · obtain ⟨p, rest, rfl⟩ := List.exists_cons_of_ne_nil hne
    exact ⟨"TypeError: string indices must be integers",
      by simp [buildInputs, serializeMapping, jsonIterItems, buildInputRecords,
        jsonGetField]⟩
  · obtain ⟨recs, hrecs⟩ := buildInputRecords_ok sid items hok
    exact ⟨recs, by simp [buildInputs, jsonIterItems, hrecs]⟩

/-- Witness for C10: the one-entry mapping written for lesson "L1" breaks
the loader, while the record shape it expects loads fine. -/
theorem c10_orchestrator_input_mismatch_witness :
    (∃ msg, buildInputs "S" (serializeMapping [("L1", "u1")]) = Except.error msg) ∧
    (∃ recs, buildInputs "S" (Json.arr [Json.obj [("columnA", Json.str "L1"),
      ("docurl", Json.str "u1")]]) = Except.ok recs) :=
  c10_orchestrator_input_mismatch "S" [("L1", "u1")]
    [Json.obj [("columnA", Json.str "L1"), ("docurl", Json.str "u1")]]
    (by simp)
    (by
      intro it hit
      rw [List.mem_singleton] at hit
      subst hit
      exact ⟨⟨Json.str "L1", rfl⟩, ⟨Json.str "u1", rfl⟩⟩)
